import Mathlib

/-!
# Shallow embedding of the data-dict-backend vocabulary core

This file embeds the handlers and the mapping service of the
`data-dict-backend` repository (Rust/axum/sqlx/qdrant) as pure Lean
functions and proves the behavioural properties claimed by its
specification.

Conventions of the embedding:

* The relational store, the embedding model and the vector index are
  external collaborators.  Where a handler consumes only the *outcome* of
  such a call (success value or error), the outcome is passed as an
  explicit `Except String _` argument or as an oracle function; where a
  claim depends on the store's query semantics (ILIKE pattern search,
  `UNNEST ... WITH ORDINALITY` joins), the store is modelled as a list of
  rows and the SQL is translated to list operations.
* `i32`/`i64` identifiers are modelled as `Int`; no claim involves
  arithmetic overflow.
* Embedding vectors are `List Int`: the handlers never inspect vector
  contents, they only move them from the embedding call into index
  points, so the numeric type of the coordinates is irrelevant and `Int`
  keeps every definition decidable.  `f32` similarity scores are
  likewise carried as `Int`.
* Each handler returns a trace structure holding the HTTP outcome
  (status code and body) together with the externally visible side
  effects it issued (tokenizer-dictionary additions, vector upserts,
  vector deletes).
-/

namespace DataDict

/-- Modelled from the spec: `src/models/word_root.rs` is not under `src/`;
the record shape is reconstructed from §3 of the spec and from the exact
column lists of the SQL statements in `word_root_handler.rs`
(`id, cn_name, en_abbr, en_full_name, associated_terms, remark, created_at`). -/
structure WordRoot where
  id : Int
  cn_name : String
  en_abbr : String
  en_full_name : Option String
  associated_terms : Option String
  remark : Option String
  created_at : Int
deriving Repr, DecidableEq

/-- Modelled from the spec: creation payload for a word root, reconstructed
from §3 of the spec and the bind lists of the INSERT/UPDATE statements in
`word_root_handler.rs`. -/
structure CreateWordRoot where
  cn_name : String
  en_abbr : String
  en_full_name : Option String
  associated_terms : Option String
  remark : Option String
deriving Repr, DecidableEq

/-- Modelled from the spec: `src/models/field.rs` is not under `src/`; the
record shape is reconstructed from §3 of the spec and the column lists in
`field_handler.rs`.  The `composition_ids` column is nullable in the table
(`get_field_details` applies `unwrap_or_default`), so it is an `Option`
here. -/
structure StandardField where
  id : Int
  field_cn_name : String
  field_en_name : String
  composition_ids : Option (List Int)
  data_type : Option String
  associated_terms : Option String
  is_standard : Bool
  created_at : Int
deriving Repr, DecidableEq

/-- Modelled from the spec: creation payload for a standard field,
reconstructed from §3 and the bind list of the INSERT in
`field_handler.rs` (`field_cn_name, field_en_name, composition_ids,
data_type, associated_terms`). -/
structure CreateFieldRequest where
  field_cn_name : String
  field_en_name : String
  composition_ids : List Int
  data_type : Option String
  associated_terms : Option String
deriving Repr, DecidableEq

/-- Embedding vectors; coordinates are opaque to all handler control flow. -/
abbrev Embedding := List Int

/-- A point pushed to the vector index: identifier, vector, payload map. -/
structure Point where
  id : Int
  vector : Embedding
  payload : List (String × String)
deriving Repr, DecidableEq

/-! ## String helpers: Rust `str::trim` and SQL `ILIKE '%pat%'` -/

/-- Rust `str::trim`: strip whitespace from both ends. -/
def strTrim (s : String) : String :=
  ⟨((s.toList.dropWhile Char.isWhitespace).reverse.dropWhile
      Char.isWhitespace).reverse⟩

/-- `prefB n h` : is `n` a leading segment of `h`? -/
def prefB : List Char → List Char → Bool
  | [], _ => true
  | _ :: _, [] => false
  | a :: as, b :: bs => a == b && prefB as bs

/-- `infB n h` : does `n` occur contiguously inside `h`? -/
def infB (needle : List Char) : List Char → Bool
  | [] => needle.isEmpty
  | c :: t => prefB needle (c :: t) || infB needle t

/-- SQL `text ILIKE '%pat%'` for patterns free of wildcard
metacharacters: case-insensitive (ASCII case folding, which is what
matters for the Chinese/ASCII vocabulary here) substring containment. -/
def ilike (text pat : String) : Bool :=
  infB (pat.toList.map Char.toLower) (text.toList.map Char.toLower)

/-- `ILIKE` applied to a nullable column: SQL `NULL ILIKE p` is not true. -/
def ilikeOpt (text : Option String) (pat : String) : Bool :=
  match text with
  | some t => ilike t pat
  | none => false

/-! ## `normalize_terms` (word_root_handler.rs) -/

/-- Character-level whitespace splitting (Rust `split_whitespace` keeps
exactly the maximal non-whitespace runs; empty groups are filtered by the
caller). -/
def splitW : List Char → List (List Char)
  | [] => [[]]
  | c :: t =>
    let r := splitW t
    if c.isWhitespace then [] :: r
    else
      match r with
      | [] => [[c]]
      | g :: gs => (c :: g) :: gs

/-- `normalize_terms`: commas (ASCII and fullwidth) become spaces, then the
string is split on whitespace and rejoined with single spaces.  The two
Rust `str::replace` calls have single-character patterns, so they are one
character map. -/
def normalize_terms (input : Option String) : Option String :=
  input.map fun s =>
    String.intercalate " "
      (((splitW (s.toList.map fun c => if c = ',' ∨ c = '，' then ' ' else c)).filter
          (fun g => g ≠ [])).map (fun g => String.mk g))

/-! ## Term resolution service (services/mapping_service.rs) -/

/-- A resolved token together with its candidate roots. -/
structure Segment where
  word : String
  candidates : List WordRoot
deriving Repr, DecidableEq

/-- The WHERE clause of both resolution queries:
`cn_name = $1 OR associated_terms ILIKE '%$1%'`. -/
def rootMatches (input : String) (r : WordRoot) : Bool :=
  r.cn_name == input || ilikeOpt r.associated_terms input

/-- The ORDER BY key of both resolution queries:
`ORDER BY (cn_name = $1) DESC, cn_name ASC` — exact name matches first,
ties broken by name ascending. -/
def rootLe (input : String) (a b : WordRoot) : Bool :=
  if (a.cn_name == input) == (b.cn_name == input) then
    decide (a.cn_name ≤ b.cn_name)
  else
    a.cn_name == input

/-- Stable insertion of `x` into a list sorted by `le`. -/
def insertSorted (le : WordRoot → WordRoot → Bool) (x : WordRoot) :
    List WordRoot → List WordRoot
  | [] => [x]
  | y :: ys => if le x y then x :: y :: ys else y :: insertSorted le x ys

/-- Stable insertion sort by `le`. -/
def sortRoots (le : WordRoot → WordRoot → Bool) : List WordRoot → List WordRoot
  | [] => []
  | x :: xs => insertSorted le x (sortRoots le xs)

/-- One resolution query against the word-root table: filter by
`rootMatches`, order by `rootLe`.  (The SQL leaves ties between equal
`cn_name` values unordered; a stable sort is a deterministic
refinement.) -/
def rootQuery (roots : List WordRoot) (input : String) : List WordRoot :=
  sortRoots (rootLe input) (roots.filter (rootMatches input))

/-- Result of `suggest_field_name` plus whether the segmentation stage
(`JIEBA.read().cut`) was executed. -/
structure SuggestResult where
  segments : List Segment
  didSegment : Bool
deriving Repr, DecidableEq

/-- `suggest_field_name` (services/mapping_service.rs).  The tokenizer is
external state, so the segmenter is an oracle argument `cut`. -/
def suggest_field_name (roots : List WordRoot) (cut : String → List String)
    (cn_input : String) : SuggestResult :=
  let input := strTrim cn_input
  if input = "" then ⟨[], false⟩
  else
    let full_candidates := rootQuery roots input
    if full_candidates = [] then
      let segs := (cut input).filterMap fun w =>
        let trimmed := strTrim w
        if trimmed = "" then none
        else some ⟨trimmed, rootQuery roots trimmed⟩
      ⟨segs, true⟩
    else
      ⟨[⟨input, full_candidates⟩], false⟩

/-! ## Word-root mutation handlers (handlers/word_root_handler.rs)

Every external call appears as an oracle: `db*` arguments give the outcome
of the sqlx statement, `embed` the outcome of `model.embed(texts)`
(one vector per input text), and the upsert/delete outcome arguments give
the result of the qdrant call — which the Rust code binds to `let _ = ...`,
i.e. discards. -/

/-- Text embedded for a word root:
`format!("{} {} {}", cn_name, en_full_name.unwrap_or(""), associated_terms.unwrap_or(""))`. -/
def rootEmbedText (root : WordRoot) : String :=
  root.cn_name ++ " " ++ root.en_full_name.getD "" ++ " " ++
    root.associated_terms.getD ""

/-- The index point built for a word root. -/
def rootPoint (root : WordRoot) (v : Embedding) : Point :=
  ⟨root.id, v, [("cn_name", root.cn_name), ("en_abbr", root.en_abbr)]⟩

/-- Outcome of a single word-root mutation: HTTP status, JSON body (the
created row, when one is returned), tokenizer-dictionary additions
`(word, weight)`, and vector upserts `(collection, points)`. -/
structure MutationTrace where
  status : Nat
  rootBody : Option WordRoot
  jiebaAdds : List (String × Nat)
  upserts : List (String × List Point)
deriving Repr, DecidableEq

/-- `create_root`: normalize the synonym string, INSERT, and on success add
the Chinese name to the tokenizer with weight 99999, embed, and
best-effort upsert the point (upsert outcome discarded). -/
def create_root (payload : CreateWordRoot)
    (dbInsert : CreateWordRoot → Except String WordRoot)
    (embed : List String → Except String (List Embedding))
    (_upsertRes : Except String Unit) : MutationTrace :=
  let norm := { payload with associated_terms := normalize_terms payload.associated_terms }
  match dbInsert norm with
  | .ok root =>
    match embed [rootEmbedText root] with
    | .ok embeddings =>
      { status := 201, rootBody := some root,
        jiebaAdds := [(root.cn_name, 99999)],
        upserts := [("word_roots", [rootPoint root (embeddings.getD 0 [])])] }
    | .error _ =>
      { status := 201, rootBody := some root,
        jiebaAdds := [(root.cn_name, 99999)], upserts := [] }
  | .error _ => { status := 500, rootBody := none, jiebaAdds := [], upserts := [] }

/-- `update_root`: normalize the synonym string, UPDATE, and on success
embed and best-effort upsert.  The Rust handler does *not* touch the
tokenizer dictionary on update. -/
def update_root (_id : Int) (payload : CreateWordRoot)
    (dbUpdate : CreateWordRoot → Except String WordRoot)
    (embed : List String → Except String (List Embedding))
    (_upsertRes : Except String Unit) : MutationTrace :=
  let norm := { payload with associated_terms := normalize_terms payload.associated_terms }
  match dbUpdate norm with
  | .ok root =>
    match embed [rootEmbedText root] with
    | .ok embeddings =>
      { status := 200, rootBody := none, jiebaAdds := [],
        upserts := [("word_roots", [rootPoint root (embeddings.getD 0 [])])] }
    | .error _ =>
      { status := 200, rootBody := none, jiebaAdds := [], upserts := [] }
  | .error _ => { status := 500, rootBody := none, jiebaAdds := [], upserts := [] }

/-! ### Batch import -/

/-- The JSON body of the batch-import response. -/
structure ImportResult where
  success_count : Nat
  failure_count : Nat
  errors : List String
deriving Repr, DecidableEq

/-- Outcome of `batch_create_roots`: HTTP status, `ImportResult` body on
the 200 path, tokenizer additions, vector upserts, and how many relational
INSERTs were attempted. -/
structure BatchTrace where
  status : Nat
  result : Option ImportResult
  jiebaAdds : List (String × Nat)
  upserts : List (String × List Point)
  insertsAttempted : Nat
deriving Repr, DecidableEq

/-- Embedding input of a batch item (terms normalized before embedding). -/
def batchEmbedText (item : CreateWordRoot) : String :=
  item.cn_name ++ " " ++ item.en_full_name.getD "" ++ " " ++
    (normalize_terms item.associated_terms).getD ""

/-- Per-row error message:
`format!("行 {}: 词根 [{}] 失败: {}", index + 1, item.cn_name, e)`. -/
def batchRowMsg (index : Nat) (cn : String) (e : String) : String :=
  "行 " ++ toString (index + 1) ++ ": 词根 [" ++ cn ++ "] 失败: " ++ e

/-- The SQL-insert loop of `batch_create_roots`: for the items starting at
index `i`, returns `(success_count, errors, jieba additions, points)` in
row order.  `db j` is the outcome of the INSERT for the item at index `j`;
`embeds` is the batched embedding result, indexed positionally. -/
def batchLoop (db : Nat → Except String WordRoot) (embeds : List Embedding) :
    Nat → List CreateWordRoot →
      Nat × List String × List (String × Nat) × List Point
  | _, [] => (0, [], [], [])
  | i, item :: rest =>
    let r := batchLoop db embeds (i + 1) rest
    match db i with
    | .ok root =>
      (r.1 + 1, r.2.1, (root.cn_name, 99999) :: r.2.2.1,
        rootPoint root (embeds.getD i []) :: r.2.2.2)
    | .error e =>
      (r.1, batchRowMsg i item.cn_name e :: r.2.1, r.2.2.1, r.2.2.2)

/-- `batch_create_roots`: embed all item texts in one batched call *before
any relational write*; a failed batch embedding aborts the request with
status 500.  Otherwise run the per-row INSERT loop and upsert all
successful rows' points as one batch (outcome discarded). -/
def batch_create_roots (items : List CreateWordRoot)
    (embed : List String → Except String (List Embedding))
    (db : Nat → Except String WordRoot)
    (_upsertRes : Except String Unit) : BatchTrace :=
  match embed (items.map batchEmbedText) with
  | .error _ =>
    { status := 500, result := none, jiebaAdds := [], upserts := [],
      insertsAttempted := 0 }
  | .ok embeds =>
    let r := batchLoop db embeds 0 items
    { status := 200,
      result := some ⟨r.1, r.2.1.length, r.2.1⟩,
      jiebaAdds := r.2.2.1,
      upserts := if r.2.2.2 = [] then [] else [("word_roots", r.2.2.2)],
      insertsAttempted := items.length }

/-- Total number of points handed to the vector index by a batch trace. -/
def totalUpsertPoints (t : BatchTrace) : Nat :=
  (t.upserts.map (fun u => u.2.length)).sum

/-! ### Delete and clear -/

/-- Outcome of a delete: HTTP status and the vector deletes issued,
as `(collection, point id)`. -/
structure DeleteTrace where
  status : Nat
  vectorDeletes : List (String × Int)
deriving Repr, DecidableEq

/-- `delete_root`: DELETE the row; only when at least one row was affected,
best-effort delete the index point with the same id (outcome discarded)
and answer 204; zero affected rows answer 404 with no index call. -/
def delete_root (id : Int) (dbRes : Except String Nat)
    (_vRes : Except String Unit) : DeleteTrace :=
  match dbRes with
  | .ok n =>
    if n > 0 then ⟨204, [("word_roots", id)]⟩ else ⟨404, []⟩
  | .error _ => ⟨500, []⟩

/-- `delete_field` (field_handler.rs): same shape on the
`standard_fields` collection. -/
def delete_field (id : Int) (dbRes : Except String Nat)
    (_vRes : Except String Unit) : DeleteTrace :=
  match dbRes with
  | .ok n =>
    if n > 0 then ⟨204, [("standard_fields", id)]⟩ else ⟨404, []⟩
  | .error _ => ⟨500, []⟩

/-- Outcome of a clear-all: HTTP status, response text, and whether a
delete-all against the vector collection was issued. -/
structure ClearTrace where
  status : Nat
  msg : String
  vectorDeleteIssued : Bool
deriving Repr, DecidableEq

/-- `clear_all_roots`: TRUNCATE, then best-effort delete of all vector
points — the qdrant outcome is bound to `let _ =` and the handler answers
200 regardless of it. -/
def clear_all_roots (dbRes : Except String Unit)
    (_vRes : Except String Unit) : ClearTrace :=
  match dbRes with
  | .ok _ => ⟨200, "所有词根数据已成功清空", true⟩
  | .error e => ⟨500, "清空异常: " ++ e, false⟩

/-- `clear_all_fields`: TRUNCATE, then delete all vector points; a vector
failure after a successful truncate is reported as 206 with a distinct
message. -/
def clear_all_fields (dbRes : Except String Unit)
    (vRes : Except String Unit) : ClearTrace :=
  match dbRes with
  | .ok _ =>
    match vRes with
    | .ok _ => ⟨200, "标准字段库已完全清空", true⟩
    | .error e => ⟨206, "DB已清空但向量库失败: " ++ e, true⟩
  | .error e => ⟨500, "数据库清空失败: " ++ e, false⟩

/-! ## Standard-field handlers (handlers/field_handler.rs) -/

/-- Text embedded for a standard field:
`format!("{} {}", field_cn_name, associated_terms.unwrap_or(""))`. -/
def fieldEmbedText (f : StandardField) : String :=
  f.field_cn_name ++ " " ++ f.associated_terms.getD ""

/-- The index point built for a standard field. -/
def fieldPoint (f : StandardField) (v : Embedding) : Point :=
  ⟨f.id, v, [("cn_name", f.field_cn_name), ("en_name", f.field_en_name)]⟩

/-- Outcome of a single standard-field mutation. -/
structure FieldMutationTrace where
  status : Nat
  fieldBody : Option StandardField
  upserts : List (String × List Point)
deriving Repr, DecidableEq

/-- `create_field`: INSERT, and on success embed and best-effort upsert
(the qdrant outcome is discarded). -/
def create_field (payload : CreateFieldRequest)
    (dbInsert : CreateFieldRequest → Except String StandardField)
    (embed : List String → Except String (List Embedding))
    (_upsertRes : Except String Unit) : FieldMutationTrace :=
  match dbInsert payload with
  | .ok field =>
    match embed [fieldEmbedText field] with
    | .ok embeddings =>
      { status := 201, fieldBody := some field,
        upserts := [("standard_fields", [fieldPoint field (embeddings.getD 0 [])])] }
    | .error _ => { status := 201, fieldBody := some field, upserts := [] }
  | .error _ => { status := 500, fieldBody := none, upserts := [] }

/-- `update_field`: UPDATE, and on success embed and best-effort upsert. -/
def update_field (_id : Int) (payload : CreateFieldRequest)
    (dbUpdate : CreateFieldRequest → Except String StandardField)
    (embed : List String → Except String (List Embedding))
    (_upsertRes : Except String Unit) : FieldMutationTrace :=
  match dbUpdate payload with
  | .ok field =>
    match embed [fieldEmbedText field] with
    | .ok embeddings =>
      { status := 200, fieldBody := none,
        upserts := [("standard_fields", [fieldPoint field (embeddings.getD 0 [])])] }
    | .error _ => { status := 200, fieldBody := none, upserts := [] }
  | .error _ => { status := 500, fieldBody := none, upserts := [] }

/-! ### Field details (`get_field_details`) -/

/-- Lookup of a word root by primary key. -/
def lookupRoot (roots : List WordRoot) (i : Int) : Option WordRoot :=
  roots.find? (fun r => r.id == i)

/-- The details query
`SELECT r.* FROM UNNEST($1::INT[]) WITH ORDINALITY AS x(id, ord)
 JOIN standard_word_roots r ON r.id = x.id ORDER BY x.ord`:
one row per composition identifier that has a matching root (`id` is the
primary key), in composition order; identifiers with no matching root
contribute nothing. -/
def detailsJoin (roots : List WordRoot) (ids : List Int) : List WordRoot :=
  ids.filterMap (lookupRoot roots)

/-- Outcome of `get_field_details`. -/
inductive DetailsResponse where
  | ok (roots : List WordRoot)
  | notFound
deriving Repr, DecidableEq

/-- `get_field_details`: fetch the field row's `composition_ids`; a missing
field answers 404; a NULL or empty list answers 200 with `[]`; otherwise
answer 200 with the ordinality join against the root table. -/
def get_field_details (fields : List StandardField) (roots : List WordRoot)
    (id : Int) : DetailsResponse :=
  match fields.find? (fun f => f.id == id) with
  | some row =>
    let ids := (row.composition_ids).getD []
    if ids = [] then .ok [] else .ok (detailsJoin roots ids)
  | none => .notFound

/-- The relational effect of a successful `create_field` INSERT on the
field table: a new row with the payload's content and a store-assigned
identifier (`is_standard` is a store-maintained default). -/
def create_field_row (req : CreateFieldRequest) (newId now : Int) : StandardField :=
  ⟨newId, req.field_cn_name, req.field_en_name, some req.composition_ids,
    req.data_type, req.associated_terms, false, now⟩

/-! ## Hybrid search (`search_field`, field_handler.rs) -/

/-- A point identifier coming back from the vector index. -/
inductive PointId where
  | num (n : Int)
  | uuid (s : String)
deriving Repr, DecidableEq

/-- A scored hit from the vector index (score opaque, cf. `Embedding`). -/
structure ScoredPoint where
  id : Option PointId
  payload : List (String × String)
  score : Int
deriving Repr, DecidableEq

/-- The JSON row built from a semantic hit by `search_field`. -/
structure SemanticHit where
  id : Option PointId
  field_cn_name : Option String
  field_en_name : Option String
  score : Int
deriving Repr, DecidableEq

/-- Payload-to-JSON mapping of a semantic hit in `search_field`. -/
def scoredToHit (p : ScoredPoint) : SemanticHit :=
  ⟨p.id, (p.payload.lookup "cn_name"), (p.payload.lookup "en_name"), p.score⟩

/-- Body of a `search_field` response: the verbatim lexical rows, the
semantic JSON rows, or the empty-list fallback. -/
inductive SearchBody where
  | lexical (fields : List StandardField)
  | semantic (hits : List SemanticHit)
  | emptyList
deriving Repr, DecidableEq

/-- Outcome of `search_field`, with flags recording whether the embedding
model and the vector index were invoked. -/
structure SearchTrace where
  status : Nat
  body : SearchBody
  embedCalled : Bool
  searchCalled : Bool
deriving Repr, DecidableEq

/-- The lexical pass:
`WHERE field_cn_name ILIKE '%q%' OR associated_terms ILIKE '%q%' LIMIT 10`
in the store's natural order. -/
def lexicalSearch (rows : List StandardField) (q : String) : List StandardField :=
  ((rows.filter fun f =>
      ilike f.field_cn_name q || ilikeOpt f.associated_terms q).take 10)

/-- `search_field`: lexical pass first (a failed SELECT degrades to `[]`
via `unwrap_or_default`, modelled by `dbOk`); non-empty lexical hits are
returned verbatim with no embedding/index call; otherwise embed the query
and search the index, degrading to an empty 200 response when either
fails. -/
def search_field (rows : List StandardField) (q : String) (dbOk : Bool)
    (embed : List String → Except String (List Embedding))
    (qsearch : Embedding → Except String (List ScoredPoint)) : SearchTrace :=
  let sql_results := if dbOk then lexicalSearch rows q else []
  if sql_results ≠ [] then
    ⟨200, .lexical sql_results, false, false⟩
  else
    match embed [q] with
    | .ok embeddings =>
      match qsearch (embeddings.getD 0 []) with
      | .ok pts => ⟨200, .semantic (pts.map scoredToHit), true, true⟩
      | .error _ => ⟨200, .emptyList, true, true⟩
    | .error _ => ⟨200, .emptyList, true, false⟩

/-! ## Semantic similar-roots search (`search_similar_roots`,
handlers/mapping_handler.rs) -/

/-- The JSON row built for a similar-root hit. -/
structure RootSuggestion where
  id : String
  cn_name : String
  en_abbr : String
  score : Int
deriving Repr, DecidableEq

/-- Identifier rendering of `search_similar_roots`: numeric ids as decimal
strings, UUID ids verbatim, anything missing as `"0"`. -/
def pointIdString (pid : Option PointId) : String :=
  match pid with
  | some (.num n) => toString n
  | some (.uuid u) => u
  | none => "0"

/-- Hit-to-JSON mapping of `search_similar_roots`. -/
def scoredToSuggestion (p : ScoredPoint) : RootSuggestion :=
  ⟨pointIdString p.id, (p.payload.lookup "cn_name").getD "",
    (p.payload.lookup "en_abbr").getD "", p.score⟩

/-- Outcome of `search_similar_roots`. -/
structure SimilarTrace where
  status : Nat
  suggestions : Option (List RootSuggestion)
deriving Repr, DecidableEq

/-- `search_similar_roots`: empty trimmed input answers 400; an embedding
failure answers 500; an index failure answers 500; success answers 200
with the mapped hits. -/
def search_similar_roots (qRaw : String)
    (embed : List String → Except String (List Embedding))
    (qsearch : Embedding → Except String (List ScoredPoint)) : SimilarTrace :=
  let input := strTrim qRaw
  if input = "" then ⟨400, none⟩
  else
    match embed [input] with
    | .ok embeddings =>
      match qsearch (embeddings.getD 0 []) with
      | .ok pts => ⟨200, some (pts.map scoredToSuggestion)⟩
      | .error _ => ⟨500, none⟩
    | .error _ => ⟨500, none⟩

/-! ## Helper lemmas about the batch-import loop -/

/-- Does an INSERT outcome denote a failure? -/
def isErrB : Except String WordRoot → Bool
  | .error _ => true
  | .ok _ => false

@[simp] theorem isErrB_ok (r : WordRoot) : isErrB (.ok r) = false := rfl

@[simp] theorem isErrB_error (e : String) : isErrB (.error e) = true := rfl

theorem batchLoop_len (db : Nat → Except String WordRoot)
    (embeds : List Embedding) :
    ∀ (items : List CreateWordRoot) (i : Nat),
      (batchLoop db embeds i items).1 +
        (batchLoop db embeds i items).2.1.length = items.length := by
  intro items
  induction items with
  | nil => intro i; simp [batchLoop]
  | cons item rest ih =>
    intro i
    have h := ih (i + 1)
    cases hdb : db i <;> simp [batchLoop, hdb] <;> omega

theorem batchLoop_pts (db : Nat → Except String WordRoot)
    (embeds : List Embedding) :
    ∀ (items : List CreateWordRoot) (i : Nat),
      (batchLoop db embeds i items).2.2.2.length =
        (batchLoop db embeds i items).1 := by
  intro items
  induction items with
  | nil => intro i; simp [batchLoop]
  | cons item rest ih =>
    intro i
    have h := ih (i + 1)
    cases hdb : db i <;> simp [batchLoop, hdb] <;> omega

theorem batchLoop_errs (db : Nat → Except String WordRoot)
    (embeds : List Embedding) :
    ∀ (items : List CreateWordRoot) (i : Nat),
      (batchLoop db embeds i items).2.1.length =
        ((List.range' i items.length).filter fun j => isErrB (db j)).length := by
  intro items
  induction items with
  | nil => intro i; simp [batchLoop]
  | cons item rest ih =>
    intro i
    have h := ih (i + 1)
    cases hdb : db i <;>
      simp [batchLoop, hdb, List.range', List.filter_cons] <;> omega

theorem batchLoop_adds (db : Nat → Except String WordRoot)
    (embeds : List Embedding) :
    ∀ (items : List CreateWordRoot) (i j : Nat) (root : WordRoot),
      i ≤ j → j < i + items.length → db j = .ok root →
      (root.cn_name, 99999) ∈ (batchLoop db embeds i items).2.2.1 := by
  intro items
  induction items with
  | nil => intro i j root h1 h2 _; simp at h2; omega
  | cons item rest ih =>
    intro i j root h1 h2 hdb
    by_cases hj : j = i
    · subst hj
      simp [batchLoop, hdb]
    · have hmem := ih (i + 1) j root (by omega) (by simp at h2; omega) hdb
      cases hi : db i with
      | ok r0 => simp only [batchLoop, hi]; exact List.mem_cons_of_mem _ hmem
      | error e0 => simp only [batchLoop, hi]; exact hmem

theorem batchLoop_indep (db : Nat → Except String WordRoot)
    (e₁ e₂ : List Embedding) :
    ∀ (items : List CreateWordRoot) (i : Nat),
      (batchLoop db e₁ i items).1 = (batchLoop db e₂ i items).1 ∧
      (batchLoop db e₁ i items).2.1 = (batchLoop db e₂ i items).2.1 := by
  intro items
  induction items with
  | nil => intro i; simp [batchLoop]
  | cons item rest ih =>
    intro i
    have h := ih (i + 1)
    cases hdb : db i <;> simp [batchLoop, hdb] <;> simp [h.1, h.2]

theorem find?_in_appended_row (p : StandardField → Bool)
    (l : List StandardField) (x : StandardField)
    (hl : ∀ y ∈ l, p y = false) (hx : p x = true) :
    (l ++ [x]).find? p = some x := by
  rw [List.find?_append, List.find?_eq_none.2 (by intro y hy; simp [hl y hy])]
  simp [List.find?, hx]

/-! ## Response-shape lemmas for the single-entity mutation handlers -/

theorem create_root_resp (p : CreateWordRoot)
    (dbi : CreateWordRoot → Except String WordRoot)
    (e : List String → Except String (List Embedding))
    (u : Except String Unit) :
    (create_root p dbi e u).status =
      (match dbi { p with associated_terms := normalize_terms p.associated_terms } with
        | .ok _ => 201
        | .error _ => 500) ∧
    (create_root p dbi e u).rootBody =
      (match dbi { p with associated_terms := normalize_terms p.associated_terms } with
        | .ok r => some r
        | .error _ => none) := by
  unfold create_root
  cases h : dbi { p with associated_terms := normalize_terms p.associated_terms } with
  | ok root =>
    simp only [h]
    cases he : e [rootEmbedText root] <;> simp [he]
  | error err => simp [h]

theorem update_root_resp (i : Int) (p : CreateWordRoot)
    (dbu : CreateWordRoot → Except String WordRoot)
    (e : List String → Except String (List Embedding))
    (u : Except String Unit) :
    (update_root i p dbu e u).status =
      (match dbu { p with associated_terms := normalize_terms p.associated_terms } with
        | .ok _ => 200
        | .error _ => 500) ∧
    (update_root i p dbu e u).rootBody = none := by
  unfold update_root
  cases h : dbu { p with associated_terms := normalize_terms p.associated_terms } with
  | ok root =>
    simp only [h]
    cases he : e [rootEmbedText root] <;> simp [he]
  | error err => simp [h]

theorem create_field_resp (p : CreateFieldRequest)
    (dbi : CreateFieldRequest → Except String StandardField)
    (e : List String → Except String (List Embedding))
    (u : Except String Unit) :
    (create_field p dbi e u).status =
      (match dbi p with
        | .ok _ => 201
        | .error _ => 500) ∧
    (create_field p dbi e u).fieldBody =
      (match dbi p with
        | .ok f => some f
        | .error _ => none) := by
  unfold create_field
  cases h : dbi p with
  | ok f =>
    simp only [h]
    cases he : e [fieldEmbedText f] <;> simp [he]
  | error err => simp [h]

theorem update_field_resp (i : Int) (p : CreateFieldRequest)
    (dbu : CreateFieldRequest → Except String StandardField)
    (e : List String → Except String (List Embedding))
    (u : Except String Unit) :
    (update_field i p dbu e u).status =
      (match dbu p with
        | .ok _ => 200
        | .error _ => 500) ∧
    (update_field i p dbu e u).fieldBody = none := by
  unfold update_field
  cases h : dbu p with
  | ok f =>
    simp only [h]
    cases he : e [fieldEmbedText f] <;> simp [he]
  | error err => simp [h]

/-! ## Claim C1 -/

/-- C1 (counterexample): in `batch_create_roots` a failure of the
up-front batched embedding call *does* surface as a request failure.
With one item and a relational oracle that would succeed, an embedding
failure produces status 500 and zero attempted INSERTs, while the same
relational oracle with a successful embedding produces status 200 — so
the reported outcome of the batch path is not determined solely by the
relational writes. -/
theorem c1_embed_failure_surfaces_in_batch :
    (batch_create_roots [⟨"温度", "WD", none, none, none⟩]
        (fun _ => .error "模型异常")
        (fun _ => .ok ⟨1, "温度", "WD", none, none, none, 0⟩)
        (.ok ())).status = 500 ∧
    (batch_create_roots [⟨"温度", "WD", none, none, none⟩]
        (fun _ => .error "模型异常")
        (fun _ => .ok ⟨1, "温度", "WD", none, none, none, 0⟩)
        (.ok ())).insertsAttempted = 0 ∧
    (batch_create_roots [⟨"温度", "WD", none, none, none⟩]
        (fun _ => .ok [[0]])
        (fun _ => .ok ⟨1, "温度", "WD", none, none, none, 0⟩)
        (.ok ())).status = 200 :=
  ⟨rfl, rfl, rfl⟩

/-- C1 (amended): for the *single* mutation paths (WordRoot create and
update, StandardField create and update) the reported outcome — status
and body — is determined solely by the relational outcome: it is
invariant under any change of the embedding oracle and of the (discarded)
vector-upsert outcome.  For the batch path this holds only once the
up-front batched embedding call has succeeded: with any successful
embedding oracle the status is 200 and the reported `ImportResult`
depends only on the relational outcomes; an embedding failure, however,
aborts the whole request with status 500 before any relational write. -/
theorem c1_amended :
    (∀ p dbi e₁ e₂ u₁ u₂,
        (create_root p dbi e₁ u₁).status = (create_root p dbi e₂ u₂).status ∧
        (create_root p dbi e₁ u₁).rootBody = (create_root p dbi e₂ u₂).rootBody) ∧
    (∀ i p dbu e₁ e₂ u₁ u₂,
        (update_root i p dbu e₁ u₁).status = (update_root i p dbu e₂ u₂).status ∧
        (update_root i p dbu e₁ u₁).rootBody = (update_root i p dbu e₂ u₂).rootBody) ∧
    (∀ p dbi e₁ e₂ u₁ u₂,
        (create_field p dbi e₁ u₁).status = (create_field p dbi e₂ u₂).status ∧
        (create_field p dbi e₁ u₁).fieldBody = (create_field p dbi e₂ u₂).fieldBody) ∧
    (∀ i p dbu e₁ e₂ u₁ u₂,
        (update_field i p dbu e₁ u₁).status = (update_field i p dbu e₂ u₂).status ∧
        (update_field i p dbu e₁ u₁).fieldBody = (update_field i p dbu e₂ u₂).fieldBody) ∧
    (∀ items (eo : List String → List Embedding) db u,
        (batch_create_roots items (fun t => .ok (eo t)) db u).status = 200) ∧
    (∀ items (eo₁ eo₂ : List String → List Embedding) db u₁ u₂,
        (batch_create_roots items (fun t => .ok (eo₁ t)) db u₁).result =
          (batch_create_roots items (fun t => .ok (eo₂ t)) db u₂).result) ∧
    (∀ items m db u,
        (batch_create_roots items (fun _ => .error m) db u).status = 500 ∧
        (batch_create_roots items (fun _ => .error m) db u).insertsAttempted = 0) := by
  refine ⟨?_, ?_, ?_, ?_, ?_, ?_, ?_⟩
  · intro p dbi e₁ e₂ u₁ u₂
    obtain ⟨hs₁, hb₁⟩ := create_root_resp p dbi e₁ u₁
    obtain ⟨hs₂, hb₂⟩ := create_root_resp p dbi e₂ u₂
    exact ⟨hs₁.trans hs₂.symm, hb₁.trans hb₂.symm⟩
  · intro i p dbu e₁ e₂ u₁ u₂
    obtain ⟨hs₁, hb₁⟩ := update_root_resp i p dbu e₁ u₁
    obtain ⟨hs₂, hb₂⟩ := update_root_resp i p dbu e₂ u₂
    exact ⟨hs₁.trans hs₂.symm, hb₁.trans hb₂.symm⟩
  · intro p dbi e₁ e₂ u₁ u₂
    obtain ⟨hs₁, hb₁⟩ := create_field_resp p dbi e₁ u₁
    obtain ⟨hs₂, hb₂⟩ := create_field_resp p dbi e₂ u₂
    exact ⟨hs₁.trans hs₂.symm, hb₁.trans hb₂.symm⟩
  · intro i p dbu e₁ e₂ u₁ u₂
    obtain ⟨hs₁, hb₁⟩ := update_field_resp i p dbu e₁ u₁
    obtain ⟨hs₂, hb₂⟩ := update_field_resp i p dbu e₂ u₂
    exact ⟨hs₁.trans hs₂.symm, hb₁.trans hb₂.symm⟩
  · intro items eo db u; rfl
  · intro items eo₁ eo₂ db u₁ u₂
    obtain ⟨hs, he⟩ :=
      batchLoop_indep db (eo₁ (items.map batchEmbedText))
        (eo₂ (items.map batchEmbedText)) items 0
    simp only [batch_create_roots, hs, he]
  · intro items m db u; exact ⟨rfl, rfl⟩

/-! ## Claim C2 -/

/-- C2: whenever the lexical pass of the hybrid field search
(case-insensitive substring match on `field_cn_name` and
`associated_terms`, capped at 10 rows) yields at least one hit, the
response is exactly that lexical result set with status 200, and neither
the embedding model nor the vector index is invoked. -/
theorem c2_lexical_hits_short_circuit (rows : List StandardField) (q : String)
    (embed : List String → Except String (List Embedding))
    (qsearch : Embedding → Except String (List ScoredPoint))
    (h : lexicalSearch rows q ≠ []) :
    search_field rows q true embed qsearch =
      ⟨200, .lexical (lexicalSearch rows q), false, false⟩ := by
  simp only [search_field, if_true]
  rw [if_pos h]

/-- C2 witness: a store with one field whose name contains the query; the
embedding oracle is a stub that errors if consulted, and the response is
nonetheless the verbatim lexical result with no embedding or index
call. -/
theorem c2_witness :
    search_field
        [⟨1, "温度", "temperature", some [1], some "VARCHAR", some "气温 体温", true, 0⟩]
        "温" true (fun _ => .error "stub: embedding must not be called")
        (fun _ => .error "stub: index must not be called") =
      ⟨200,
        .lexical [⟨1, "温度", "temperature", some [1], some "VARCHAR", some "气温 体温", true, 0⟩],
        false, false⟩ :=
  c2_lexical_hits_short_circuit
    [⟨1, "温度", "temperature", some [1], some "VARCHAR", some "气温 体温", true, 0⟩]
    "温" (fun _ => .error "stub: embedding must not be called")
    (fun _ => .error "stub: index must not be called") (by decide)

/-! ## Claim C3 -/

/-- C3: for a non-empty trimmed input whose whole-phrase stage (exact
name equality or synonym substring containment) yields at least one
candidate, `suggest_field_name` returns exactly one Segment covering the
whole trimmed input with those candidates, the segmentation stage is not
executed, and the result is independent of the segmenter. -/
theorem c3_whole_phrase_short_circuit (roots : List WordRoot)
    (cut cut₂ : String → List String) (inp : String)
    (h1 : strTrim inp ≠ "")
    (h2 : rootQuery roots (strTrim inp) ≠ []) :
    suggest_field_name roots cut inp =
      ⟨[⟨strTrim inp, rootQuery roots (strTrim inp)⟩], false⟩ ∧
    suggest_field_name roots cut inp = suggest_field_name roots cut₂ inp := by
  constructor
  · simp only [suggest_field_name]
    rw [if_neg h1, if_neg h2]
  · simp only [suggest_field_name]
    rw [if_neg h1, if_neg h1, if_neg h2, if_neg h2]

/-- C3 witness: the store knows the whole phrase "身份证号码" (by exact
name), no sub-token of which independently matches; two different
segmenter stubs yield the same single whole-input Segment. -/
theorem c3_witness :
    suggest_field_name
        [⟨1, "身份证号码", "ID_NO", none, some "证件号", none, 0⟩]
        (fun s => [s]) "身份证号码" =
      ⟨[⟨"身份证号码", [⟨1, "身份证号码", "ID_NO", none, some "证件号", none, 0⟩]⟩],
        false⟩ :=
  (c3_whole_phrase_short_circuit
      [⟨1, "身份证号码", "ID_NO", none, some "证件号", none, 0⟩]
      (fun s => [s]) (fun s => ["身份证", "号码"]) "身份证号码"
      (by decide) (by decide)).1

/-! ## Claim C4 -/

/-- C4: for both delete handlers, a relational delete affecting zero rows
answers 404 and issues no vector-index delete; a relational delete
affecting at least one row issues exactly one vector-index delete of the
same identifier in the entity's collection and answers 204. -/
theorem c4_delete_guard :
    ∀ (id : Int) (v : Except String Unit) (n : Nat),
      (delete_root id (.ok 0) v).status = 404 ∧
      (delete_root id (.ok 0) v).vectorDeletes = [] ∧
      (delete_root id (.ok (n + 1)) v).status = 204 ∧
      (delete_root id (.ok (n + 1)) v).vectorDeletes = [("word_roots", id)] ∧
      (delete_field id (.ok 0) v).status = 404 ∧
      (delete_field id (.ok 0) v).vectorDeletes = [] ∧
      (delete_field id (.ok (n + 1)) v).status = 204 ∧
      (delete_field id (.ok (n + 1)) v).vectorDeletes = [("standard_fields", id)] := by
  intro id v n
  simp [delete_root, delete_field]

/-! ## Claim C5 -/

/-- C5: a batch import of N items in which exactly one relational INSERT
fails (and the batched embedding succeeded) answers 200 with
success_count = N-1, failure_count = 1, one per-row error message, all N
INSERTs attempted, and exactly N-1 points handed to the vector index. -/
theorem c5_batch_single_failure (items : List CreateWordRoot)
    (embed : List String → Except String (List Embedding))
    (embeds : List Embedding) (db : Nat → Except String WordRoot)
    (u : Except String Unit)
    (hembed : embed (items.map batchEmbedText) = .ok embeds)
    (hone : ((List.range' 0 items.length).filter fun j => isErrB (db j)).length = 1) :
    (batch_create_roots items embed db u).status = 200 ∧
    (batch_create_roots items embed db u).insertsAttempted = items.length ∧
    (∃ res, (batch_create_roots items embed db u).result = some res ∧
      res.success_count = items.length - 1 ∧
      res.failure_count = 1 ∧
      res.errors.length = 1) ∧
    totalUpsertPoints (batch_create_roots items embed db u) = items.length - 1 := by
  have hlen := batchLoop_len db embeds items 0
  have herr := batchLoop_errs db embeds items 0
  have hpts := batchLoop_pts db embeds items 0
  rw [hone] at herr
  have hN : 1 ≤ items.length := by
    have := List.length_filter_le (fun j => isErrB (db j))
      (List.range' 0 items.length)
    rw [hone] at this
    simpa using this
  have hsucc : (batchLoop db embeds 0 items).1 = items.length - 1 := by omega
  refine ⟨?_, ?_, ?_, ?_⟩
  · simp [batch_create_roots, hembed]
  · simp [batch_create_roots, hembed]
  · refine ⟨⟨(batchLoop db embeds 0 items).1,
      (batchLoop db embeds 0 items).2.1.length, (batchLoop db embeds 0 items).2.1⟩,
      ?_, hsucc, herr, herr⟩
    simp [batch_create_roots, hembed]
  · by_cases hp : (batchLoop db embeds 0 items).2.2.2 = []
    · have h0 : (batchLoop db embeds 0 items).2.2.2.length = 0 := by simp [hp]
      simp only [batch_create_roots, hembed, totalUpsertPoints, hp, if_true,
        List.map_nil, List.sum_nil]
      omega
    · simp only [batch_create_roots, hembed, totalUpsertPoints]
      rw [if_neg hp]
      simp only [List.map_cons, List.map_nil, List.sum_cons, List.sum_nil]
      omega

/-- C5 witness: two items, the second INSERT fails; the response reports
one success and one failure and the index receives exactly one point. -/
theorem c5_witness :
    (batch_create_roots
        [⟨"温度", "WD", none, none, none⟩, ⟨"湿度", "SD", none, none, none⟩]
        (fun _ => .ok [[1], [2]])
        (fun j => if j = 0 then .ok ⟨1, "温度", "WD", none, none, none, 0⟩
                  else .error "重复键")
        (.ok ())).status = 200 ∧
    (batch_create_roots
        [⟨"温度", "WD", none, none, none⟩, ⟨"湿度", "SD", none, none, none⟩]
        (fun _ => .ok [[1], [2]])
        (fun j => if j = 0 then .ok ⟨1, "温度", "WD", none, none, none, 0⟩
                  else .error "重复键")
        (.ok ())).insertsAttempted = 2 ∧
    (∃ res, (batch_create_roots
        [⟨"温度", "WD", none, none, none⟩, ⟨"湿度", "SD", none, none, none⟩]
        (fun _ => .ok [[1], [2]])
        (fun j => if j = 0 then .ok ⟨1, "温度", "WD", none, none, none, 0⟩
                  else .error "重复键")
        (.ok ())).result = some res ∧
      res.success_count = 2 - 1 ∧ res.failure_count = 1 ∧ res.errors.length = 1) ∧
    totalUpsertPoints (batch_create_roots
        [⟨"温度", "WD", none, none, none⟩, ⟨"湿度", "SD", none, none, none⟩]
        (fun _ => .ok [[1], [2]])
        (fun j => if j = 0 then .ok ⟨1, "温度", "WD", none, none, none, 0⟩
                  else .error "重复键")
        (.ok ())) = 2 - 1 :=
  c5_batch_single_failure
    [⟨"温度", "WD", none, none, none⟩, ⟨"湿度", "SD", none, none, none⟩]
    (fun _ => .ok [[1], [2]]) [[1], [2]]
    (fun j => if j = 0 then .ok ⟨1, "温度", "WD", none, none, none, 0⟩
              else .error "重复键")
    (.ok ()) rfl (by decide)

/-! ## Claim C6 -/

/-- C6 (counterexample): a WordRoot *update* that succeeds relationally
registers nothing in the tokenizer dictionary — the update handler never
touches it. -/
theorem c6_update_does_not_learn :
    (update_root 1 ⟨"温度", "WD", none, none, none⟩
        (fun _ => .ok ⟨1, "温度", "WD", none, none, none, 0⟩)
        (fun _ => .ok [[0]]) (.ok ())).jiebaAdds = [] :=
  rfl

/-- C6 (amended): every WordRoot *create* that succeeds relationally —
the single create, and each relationally successful row of a batch
create — registers the entity's Chinese name into the tokenizer
dictionary with weight 99999; a WordRoot *update* never adds anything to
the tokenizer dictionary, whatever the relational outcome. -/
theorem c6_amended :
    (∀ p dbi e u root,
        dbi { p with associated_terms := normalize_terms p.associated_terms } =
          .ok root →
        (create_root p dbi e u).jiebaAdds = [(root.cn_name, 99999)]) ∧
    (∀ i p dbu e u, (update_root i p dbu e u).jiebaAdds = []) ∧
    (∀ items (eo : List String → List Embedding) db u j root,
        j < items.length → db j = .ok root →
        (root.cn_name, 99999) ∈
          (batch_create_roots items (fun t => .ok (eo t)) db u).jiebaAdds) := by
  refine ⟨?_, ?_, ?_⟩
  · intro p dbi e u root hdb
    unfold create_root
    simp only [hdb]
    cases he : e [rootEmbedText root] <;> simp [he]
  · intro i p dbu e u
    unfold update_root
    cases h : dbu { p with associated_terms := normalize_terms p.associated_terms } with
    | ok root =>
      simp only [h]
      cases he : e [rootEmbedText root] <;> simp [he]
    | error err => simp [h]
  · intro items eo db u j root hj hdb
    exact batchLoop_adds db (eo (items.map batchEmbedText)) items 0 j root
      (Nat.zero_le j) (by omega) hdb

/-- C6 witness: a successful single create registers the name with weight
99999, and a successful row of a batch create does too. -/
theorem c6_witness :
    (create_root ⟨"温度", "WD", none, none, none⟩
        (fun _ => .ok ⟨1, "温度", "WD", none, none, none, 0⟩)
        (fun _ => .ok [[0]]) (.ok ())).jiebaAdds = [("温度", 99999)] ∧
    ("温度", 99999) ∈
      (batch_create_roots [⟨"温度", "WD", none, none, none⟩]
          (fun _ => .ok [[0]])
          (fun _ => .ok ⟨1, "温度", "WD", none, none, none, 0⟩)
          (.ok ())).jiebaAdds :=
  ⟨c6_amended.1 ⟨"温度", "WD", none, none, none⟩
      (fun _ => .ok ⟨1, "温度", "WD", none, none, none, 0⟩)
      (fun _ => .ok [[0]]) (.ok ()) ⟨1, "温度", "WD", none, none, none, 0⟩ rfl,
    c6_amended.2.2 [⟨"温度", "WD", none, none, none⟩] (fun _ => [[0]])
      (fun _ => .ok ⟨1, "温度", "WD", none, none, none, 0⟩) (.ok ()) 0
      ⟨1, "温度", "WD", none, none, none, 0⟩ (by decide) rfl⟩

/-! ## Claim C7 -/

/-- C7 (counterexample): `search_similar_roots` does *not* degrade to an
empty success: on an embedding failure (non-empty trimmed input) it
answers 500 with no body. -/
theorem c7_similar_roots_fails_hard :
    (search_similar_roots "温度" (fun _ => .error "模型宕机")
        (fun _ => .ok [])).status = 500 ∧
    (search_similar_roots "温度" (fun _ => .ok [[1]])
        (fun _ => .error "连接失败")).status = 500 :=
  ⟨rfl, rfl⟩

/-- C7 (amended): the hybrid field search never fails — its status is 200
for every oracle outcome, and when the lexical pass is empty an embedding
failure or an index failure yields the empty-list body; the semantic
similar-roots search, by contrast, answers 500 when the embedding call or
the index query fails (for non-empty trimmed input). -/
theorem c7_amended :
    (∀ rows q dbOk embed qsearch,
        (search_field rows q dbOk embed qsearch).status = 200) ∧
    (∀ rows q qsearch m, lexicalSearch rows q = [] →
        (search_field rows q true (fun _ => .error m) qsearch).body = .emptyList) ∧
    (∀ rows q (eo : List String → List Embedding) m, lexicalSearch rows q = [] →
        (search_field rows q true (fun t => .ok (eo t))
            (fun _ => .error m)).body = .emptyList) ∧
    (∀ q m qsearch, strTrim q ≠ "" →
        (search_similar_roots q (fun _ => .error m) qsearch).status = 500) ∧
    (∀ q (eo : List String → List Embedding) m, strTrim q ≠ "" →
        (search_similar_roots q (fun t => .ok (eo t))
            (fun _ => .error m)).status = 500) := by
  refine ⟨?_, ?_, ?_, ?_, ?_⟩
  · intro rows q dbOk embed qsearch
    simp only [search_field]
    by_cases h : (if dbOk then lexicalSearch rows q else []) = []
    · rw [if_neg (by simp [h])]
      split
      · split <;> rfl
      · rfl
    · rw [if_pos h]
  · intro rows q qsearch m h
    simp [search_field, h]
  · intro rows q eo m h
    simp [search_field, h]
  · intro q m qsearch h
    simp [search_similar_roots, h]
  · intro q eo m h
    simp [search_similar_roots, h]

/-- C7 witness: with an empty store the lexical pass is empty and a
failing embedding still yields a 200 with the empty-list body; the
similar-roots search with the same failing embedding answers 500. -/
theorem c7_witness :
    (search_field [] "温度" true (fun _ => .error "模型宕机")
        (fun _ => .ok [])).body = .emptyList ∧
    (search_similar_roots "温度" (fun _ => .error "模型宕机")
        (fun _ => .ok [])).status = 500 :=
  ⟨c7_amended.2.1 [] "温度" (fun _ => .ok []) "模型宕机" rfl,
    c7_amended.2.2.2.1 "温度" "模型宕机" (fun _ => .ok []) (by decide)⟩

/-! ## Claim C8 -/

/-- C8 (counterexample): for the word-roots clear, a vector-clear failure
after a successful truncate is *not* reported separately — the trace is
identical to the full-success trace (status 200, same message). -/
theorem c8_roots_partial_not_reported :
    clear_all_roots (.ok ()) (.error "向量库连接失败") =
      clear_all_roots (.ok ()) (.ok ()) ∧
    (clear_all_roots (.ok ()) (.error "向量库连接失败")).status = 200 :=
  ⟨rfl, rfl⟩

/-- C8 (amended): both clear operations truncate the relational table and
then issue a best-effort delete of all vector points.  The
standard-fields clear reports a relational-success/vector-failure outcome
separately (206, distinct message) from full success (200); the
word-roots clear discards the vector outcome and reports 200 with the
same message regardless. -/
theorem c8_amended :
    (∀ v, clear_all_roots (.ok ()) v = ⟨200, "所有词根数据已成功清空", true⟩) ∧
    (∀ e v, clear_all_roots (.error e) v = ⟨500, "清空异常: " ++ e, false⟩) ∧
    (clear_all_fields (.ok ()) (.ok ()) = ⟨200, "标准字段库已完全清空", true⟩) ∧
    (∀ e, clear_all_fields (.ok ()) (.error e) =
        ⟨206, "DB已清空但向量库失败: " ++ e, true⟩) ∧
    (∀ e v, clear_all_fields (.error e) v = ⟨500, "数据库清空失败: " ++ e, false⟩) :=
  ⟨fun _ => rfl, fun _ _ => rfl, rfl, fun _ => rfl, fun _ _ => rfl⟩

/-! ## Claim C9 -/

/-- C9: creating a StandardField whose composition list is `[a, b]` (both
identifiers resolvable in the word-root store) and reading the field's
details returns the two constituent roots in exactly composition order,
for any store contents and any insertion/identifier order. -/
theorem c9_composition_roundtrip (fields : List StandardField)
    (roots : List WordRoot) (req : CreateFieldRequest) (a b newId now : Int)
    (ra rb : WordRoot)
    (hcomp : req.composition_ids = [a, b])
    (ha : lookupRoot roots a = some ra)
    (hb : lookupRoot roots b = some rb)
    (hfresh : ∀ f ∈ fields, (f.id == newId) = false) :
    get_field_details (fields ++ [create_field_row req newId now]) roots newId =
      .ok [ra, rb] := by
  have hfind :
      (fields ++ [create_field_row req newId now]).find?
          (fun f => f.id == newId) = some (create_field_row req newId now) :=
    find?_in_appended_row _ fields _ hfresh (by simp [create_field_row])
  simp only [get_field_details, hfind]
  simp only [create_field_row, hcomp, Option.getD_some]
  rw [if_neg (by simp)]
  simp [detailsJoin, List.filterMap_cons, ha, hb]

/-- C9 witness: the root store holds the two roots in *reversed*
identifier and insertion order; details still come back in composition
order `[1, 2]`. -/
theorem c9_witness :
    get_field_details
        ([] ++ [create_field_row ⟨"温度上限", "MAX_TEMP", [1, 2], some "INT", none⟩ 7 0])
        [⟨2, "上限", "MAX", none, none, none, 0⟩, ⟨1, "温度", "TEMP", none, none, none, 0⟩]
        7 =
      .ok [⟨1, "温度", "TEMP", none, none, none, 0⟩,
           ⟨2, "上限", "MAX", none, none, none, 0⟩] :=
  c9_composition_roundtrip []
    [⟨2, "上限", "MAX", none, none, none, 0⟩, ⟨1, "温度", "TEMP", none, none, none, 0⟩]
    ⟨"温度上限", "MAX_TEMP", [1, 2], some "INT", none⟩ 1 2 7 0
    ⟨1, "温度", "TEMP", none, none, none, 0⟩
    ⟨2, "上限", "MAX", none, none, none, 0⟩
    rfl rfl rfl (by simp)

/-! ## Claim C10 -/

/-- C10: for an existing StandardField, reading details always succeeds:
a NULL composition column yields `ok []`, a stored composition list `ids`
yields `ok` of the ordinality join (never an error), and any composition
identifier with no matching root row is silently omitted from that join
while the remaining roots keep composition order. -/
theorem c10_details_tolerates_dangling (fields : List StandardField)
    (roots : List WordRoot) (id : Int) (row : StandardField)
    (hfind : fields.find? (fun f => f.id == id) = some row) :
    (row.composition_ids = none →
        get_field_details fields roots id = .ok []) ∧
    (∀ ids, row.composition_ids = some ids →
        get_field_details fields roots id = .ok (detailsJoin roots ids)) ∧
    (∀ l1 d l2, lookupRoot roots d = none →
        detailsJoin roots (l1 ++ d :: l2) = detailsJoin roots (l1 ++ l2)) := by
  refine ⟨?_, ?_, ?_⟩
  · intro hnone
    simp [get_field_details, hfind, hnone]
  · intro ids hids
    simp only [get_field_details, hfind, hids, Option.getD_some]
    by_cases hi : ids = []
    · rw [if_pos hi, hi]
      simp [detailsJoin]
    · rw [if_neg hi]
  · intro l1 d l2 hd
    simp [detailsJoin, List.filterMap_append, List.filterMap_cons, hd]

/-- C10 witness: a field whose composition list holds a dangling
identifier (99) between two resolvable ones; details succeed and return
the two resolvable roots in composition order. -/
theorem c10_witness :
    get_field_details
        [⟨5, "温度范围", "TEMP_RANGE", some [1, 99, 2], none, none, true, 0⟩]
        [⟨1, "温度", "TEMP", none, none, none, 0⟩,
         ⟨2, "范围", "RANGE", none, none, none, 0⟩]
        5 =
      .ok [⟨1, "温度", "TEMP", none, none, none, 0⟩,
           ⟨2, "范围", "RANGE", none, none, none, 0⟩] :=
  (c10_details_tolerates_dangling
      [⟨5, "温度范围", "TEMP_RANGE", some [1, 99, 2], none, none, true, 0⟩]
      [⟨1, "温度", "TEMP", none, none, none, 0⟩,
       ⟨2, "范围", "RANGE", none, none, none, 0⟩]
      5 ⟨5, "温度范围", "TEMP_RANGE", some [1, 99, 2], none, none, true, 0⟩
      rfl).2.1 [1, 99, 2] rfl

end DataDict
